import Mathlib

/-!
Shallow embedding of the tqbot Telegram bot (a grammY-based bot) translated
from `src/index.ts`, `src/middleware/error.middleware.ts`,
`src/config/bot.config.ts`, `src/handlers/commands.handler.ts`,
`src/handlers/callbacks.handler.ts` and `src/types/bot.types.ts`.

JavaScript string primitives (`split`, `startsWith`, `trim`, `slice`,
`substring`, `includes`, `replace`) are modelled by structurally recursive
functions over the character list of a `String`, so every definition
evaluates inside the kernel.  `Date.now()` is a natural number supplied
with each update; the timestamp captured when `bot.config.ts` was
evaluated (used by `defaultSessionData`) is the `loadTime` field of the
configuration.  The middleware chain is modelled in continuation-passing
style: a middleware receives the `next` continuation explicitly, matching
the grammY `(ctx, next)` signature.
-/

/-- JS-style character-list prefix test used to model `String.startsWith`. -/
def isPrefixChars : List Char → List Char → Bool
  | [], _ => true
  | _ :: _, [] => false
  | p :: ps, c :: cs => p == c && isPrefixChars ps cs

/-- Model of the JS `s.startsWith(pre)`. -/
def jsStartsWith (s pre : String) : Bool := isPrefixChars pre.data s.data

/-- Accumulating worker for `jsSplit`. -/
def splitCharsAux (sep : Char) : List Char → List Char → List (List Char)
  | acc, [] => [acc.reverse]
  | acc, c :: cs =>
    if c == sep then acc.reverse :: splitCharsAux sep [] cs
    else splitCharsAux sep (c :: acc) cs

/-- Model of the JS `s.split(sep)` for a one-character separator, as used by
`callbackData.split(':')` and `text.split(' ')`. -/
def jsSplit (sep : Char) (s : String) : List String :=
  (splitCharsAux sep [] s.data).map String.mk

/-- Model of the JS `s.slice(n)` / `s.substring(n)` for ASCII text. -/
def jsDrop (s : String) (n : Nat) : String := String.mk (s.data.drop n)

/-- Whitespace recognised by the modelled JS `trim`. -/
def isSpaceChar (c : Char) : Bool := c == ' ' || c == '\t' || c == '\n' || c == '\r'

/-- Model of the JS `s.trim()`. -/
def jsTrim (s : String) : String :=
  String.mk (((s.data.dropWhile isSpaceChar).reverse.dropWhile isSpaceChar).reverse)

/-- Character-list containment worker for `jsIncludes`. -/
def containsChars (pat : List Char) : List Char → Bool
  | [] => isPrefixChars pat []
  | c :: cs => isPrefixChars pat (c :: cs) || containsChars pat cs

/-- Model of the JS `s.includes(pat)`. -/
def jsIncludes (s pat : String) : Bool := containsChars pat.data s.data

/-- Removes the first occurrence of `pat`, worker for `jsReplaceFirst`. -/
def removeFirstChars (pat : List Char) : List Char → List Char
  | [] => []
  | c :: cs =>
    if isPrefixChars pat (c :: cs) then (c :: cs).drop pat.length
    else c :: removeFirstChars pat cs

/-- Model of the JS `s.replace(pat, '')`, which replaces only the first
occurrence of `pat`. -/
def jsReplaceFirst (s pat : String) : String :=
  String.mk (removeFirstChars pat.data s.data)

/-- Lookup in an association list, modelling `Map.get`. -/
def alistGet {κ β : Type} [DecidableEq κ] : List (κ × β) → κ → Option β
  | [], _ => none
  | (k, v) :: rest, key => if k = key then some v else alistGet rest key

/-- Insert-or-update in an association list, modelling `Map.set` (and the
in-place mutation of a record already stored in the map). -/
def alistSet {κ β : Type} [DecidableEq κ] : List (κ × β) → κ → β → List (κ × β)
  | [], key, v => [(key, v)]
  | (k, w) :: rest, key, v =>
    if k = key then (key, v) :: rest else (k, w) :: alistSet rest key v

/-- A Telegram sender (`ctx.from`), from `bot.types.ts`. -/
structure User where
  id : Nat
  username : Option String := none
  firstName : Option String := none
  lastName : Option String := none
  languageCode : Option String := none
deriving DecidableEq

/-- One inbound update plus the environment behaviour observed while it is
processed: the clock value `Date.now()` returns, the backend response of the
sign-up POST issued by the start flow, and whether the error boundary's own
reply send throws. -/
structure Update where
  fromUser : Option User
  text : Option String := none
  callbackData : Option String := none
  now : Nat := 0
  signUpStatus : Nat := 0
  signUpMessage : String := ""
  errorReplyFails : Bool := false
deriving DecidableEq

/-- `SessionData.userState`, from `bot.types.ts`. -/
inductive UserState where
  | idle
  | waitingInput
  | inConversation
deriving DecidableEq

/-- Per-user session record, from `bot.types.ts` (`SessionData`). -/
structure SessionData where
  userId : Option Nat := none
  username : Option String := none
  firstName : Option String := none
  lastName : Option String := none
  languageCode : Option String := none
  userState : UserState := .idle
  lastActivity : Nat := 0
  messageCount : Nat := 0
  joinedAt : Nat := 0
  notificationsEnabled : Option Bool := none
deriving DecidableEq

/-- `defaultSessionData` from `bot.config.ts`: the two timestamps are
`Date.now()` evaluated once, when the module was loaded (`loadTime`). -/
def defaultSessionData (loadTime : Nat) : SessionData :=
  { userState := .idle
    languageCode := some "en"
    lastActivity := loadTime
    messageCount := 0
    joinedAt := loadTime }

/-- One rate-limit window record, from the `rateLimitStore` map in
`src/index.ts`. -/
structure RateRecord where
  count : Nat
  resetTime : Nat
deriving DecidableEq

/-- The resolved configuration consumed by the bot: `botConfig.rateLimit`,
`adminConfig.adminIds`, the `BANNED_USERS` environment list, and the
`Date.now()` captured when `bot.config.ts` was evaluated. -/
structure Config where
  window : Nat
  maxRequests : Nat
  adminIds : List Nat
  bannedUsers : List Nat
  loadTime : Nat
deriving DecidableEq

/-- An inline keyboard button: either a `callback_data` button or a
`web_app` deep link. -/
inductive Button where
  | cb (label : String) (data : String)
  | webApp (label : String) (url : String)
deriving DecidableEq

/-- `KeyboardLayout` from `bot.types.ts`: ordered rows of buttons. -/
structure KeyboardLayout where
  inline_keyboard : List (List Button)
deriving DecidableEq

/-- Which Telegram API call produced an outbound message. -/
inductive SendMethod where
  | reply
  | editMessage
  | answerCallback
deriving DecidableEq

/-- One outbound send attempt: the API method, the text and the optional
inline keyboard. -/
structure Sent where
  method : SendMethod
  text : String
  keyboard : Option KeyboardLayout
deriving DecidableEq

/-- The two process-wide mutable stores: the rate-limit map (keyed by
`ctx.from?.id?.toString() || 'unknown'`, modelled as `Option Nat` with
`none` for the `'unknown'` key) and the in-memory session storage. -/
structure BotState where
  rateStore : List (Option Nat × RateRecord)
  sessions : List (Nat × SessionData)
deriving DecidableEq

/-- The per-update context: the update itself and `ctx.session`, which is
`none` until the session middleware has installed it. -/
structure Ctx where
  update : Update
  session : Option SessionData
deriving DecidableEq

/-- The full state threaded through the middleware chain: context, shared
stores, outbound send attempts in order, send attempts that threw (logged
and swallowed), names of the handlers that executed (mirroring the
`logUserAction` calls at the top of each handler), backend sign-up calls
`(inviterId, userId)`, and errors caught by the error boundary. -/
structure MwState where
  ctx : Ctx
  bot : BotState
  sent : List Sent
  failedSends : List Sent
  handlersRun : List String
  backendCalls : List (String × Option Nat)
  caughtErrors : List String
deriving DecidableEq

/-- Result of running (part of) the middleware chain: it either completed
or an exception is propagating. -/
inductive MwResult where
  | done (s : MwState)
  | threw (s : MwState) (msg : String)
deriving DecidableEq

/-- Record an outbound send attempt. -/
def send (s : MwState) (m : Sent) : MwState := { s with sent := s.sent ++ [m] }

/-- Record that a handler body executed. -/
def ranHandler (s : MwState) (name : String) : MwState :=
  { s with handlersRun := s.handlersRun ++ [name] }

/-- Overwrite `ctx.session`. -/
def setCtxSession (s : MwState) (sd : SessionData) : MwState :=
  { s with ctx := { s.ctx with session := some sd } }

/-- Project the final state out of a middleware result. -/
def finalState : MwResult → MwState
  | .done s => s
  | .threw s _ => s

/-- `keyboards.mainMenu` from `bot.config.ts`. -/
def mainMenuKeyboard : KeyboardLayout :=
  ⟨[[.cb "⚙️ Settings" "action:settings", .cb "📋 Help" "action:help"],
    [.cb "ℹ️ About" "action:about"]]⟩

/-- `keyboards.settings` from `bot.config.ts`. -/
def settingsKeyboard : KeyboardLayout :=
  ⟨[[.cb "🌐 Language" "settings:language", .cb "🔔 Notifications" "settings:notifications"],
    [.cb "🔙 Back" "action:main"]]⟩

/-- `keyboards.language` from `bot.config.ts`. -/
def languageKeyboard : KeyboardLayout :=
  ⟨[[.cb "🇺🇸 English" "lang:en", .cb "🇷🇺 Русский" "lang:ru"],
    [.cb "🇪🇸 Español" "lang:es", .cb "🇫🇷 Français" "lang:fr"],
    [.cb "🔙 Back" "action:settings"]]⟩

/-- `keyboards.backButton` from `bot.config.ts`. -/
def backButtonKeyboard : KeyboardLayout := ⟨[[.cb "🔙 Back" "action:back"]]⟩

/-- The retry/support keyboard attached by `handleError` in
`error.middleware.ts`. -/
def retrySupportKeyboard : KeyboardLayout :=
  ⟨[[.cb "🔄 Try Again" "action:retry"], [.cb "📞 Support" "action:support"]]⟩

/-- The help-button keyboard attached to the unknown-command reply in
`commandValidationMiddleware`. -/
def helpOnlyKeyboard : KeyboardLayout := ⟨[[.cb "📋 Help" "action:help"]]⟩

/-- The keyboard attached to the default text-message reply in
`setupMessageHandlers`. -/
def textDefaultKeyboard : KeyboardLayout :=
  ⟨[[.cb "📋 Help" "action:help"], [.cb "⚙️ Settings" "action:settings"]]⟩

/-- The mini-app keyboard sent by `startCommand` on a 201 sign-up. -/
def miniAppKeyboard : KeyboardLayout :=
  ⟨[[.webApp "🔗 Open Mini App" "https://app.ton-quant.com"]]⟩

/-- The confirm/cancel keyboard of the broadcast preview; the confirm
payload embeds `Date.now()`. -/
def broadcastConfirmKeyboard (now : Nat) : KeyboardLayout :=
  ⟨[[.cb "✅ Confirm" ("broadcast:confirm:" ++ toString now), .cb "❌ Cancel" "action:cancel"]]⟩

/-- `messages.welcome` from `bot.config.ts`. -/
def messagesWelcome : String :=
  "\n🤖 <b>Welcome to the Bot!</b>\n\nHello! 👋 I\x27m here to help you with hot reload enabled!\n\n💡 <b>Available commands:</b>\n/help - Show help information\n/settings - Bot settings\n/about - About this bot\n\n🚀 <b>Get started with /help</b>\n🔥 <b>Hot reload is active!</b>\n  "

/-- `messages.help` from `bot.config.ts`. -/
def messagesHelp : String :=
  "\n<b>🛠 Bot Commands:</b>\n\n/start - Start the bot\n/help - Show this help\n/settings - Bot settings\n/about - About this bot\n/cancel - Cancel operation\n\n<b>💡 Tips:</b>\n• Use buttons for navigation\n• Type /cancel to stop any operation\n• Report issues with /support\n  "

/-- `messages.about` from `bot.config.ts`. -/
def messagesAbout : String :=
  "\n<b>🤖 About This Bot</b>\n\nThis is a Grammy.js Telegram bot template with:\n\n✅ TypeScript support\n✅ tsx for fast development\n✅ Rate limiting\n✅ Session management\n✅ Error handling\n✅ Conversation flows\n\nBuilt with ❤️ using Grammy.js framework\n  "

/-- `messages.settingsMenu` from `bot.config.ts`. -/
def messagesSettingsMenu : String :=
  "\n<b>⚙️ Bot Settings</b>\n\nCurrent settings:\n• Language: English\n• Notifications: Enabled\n\nUse the buttons below to change settings:\n  "

/-- `messages.cancelled` from `bot.config.ts`. -/
def messagesCancelled : String := "✅ Operation cancelled."

/-- The banned-user notice sent by `userValidationMiddleware`. -/
def bannedSent : Sent :=
  ⟨.reply, "🚫 You are banned from using this bot.", none⟩

/-- The throttling reply sent by the rate-limit middleware in
`src/index.ts`. -/
def throttleSent : Sent :=
  ⟨.reply, "⚠️ Too many requests! Please wait before sending another command.", none⟩

/-- The unknown-command reply sent by `commandValidationMiddleware`. -/
def unknownCommandSent : Sent :=
  ⟨.reply, "❓ Unknown command. Use /help to see available commands.", some helpOnlyKeyboard⟩

/-- The permission-denied reply sent by `adminMiddleware`. -/
def permissionDeniedSent : Sent :=
  ⟨.reply, "❌ You don\x27t have permission to use this command.", none⟩

/-- The acknowledgment produced by `ctx.answerCallbackQuery()`. -/
def answerCbSent : Sent := ⟨.answerCallback, "", none⟩

/-- The unknown-action reply of the outer `switch` default in
`callbackQueryHandler`. -/
def unknownActionOuterSent : Sent :=
  ⟨.editMessage, "❓ Unknown action. Please try again.", some mainMenuKeyboard⟩

/-- The unknown-action reply of the `handleActionCallback` default case. -/
def unknownActionInnerSent : Sent :=
  ⟨.editMessage, "❓ Unknown action.", some mainMenuKeyboard⟩

/-- The unknown-setting reply of the `handleSettingsCallback` default case. -/
def unknownSettingSent : Sent :=
  ⟨.editMessage, "❓ Unknown setting.", some settingsKeyboard⟩

/-- The unknown-language reply of `handleLanguageCallback`. -/
def unknownLanguageSent : Sent :=
  ⟨.editMessage, "❓ Unknown language.", some languageKeyboard⟩

/-- The reply sent while `userState` is `waiting_input` in the text-message
handler. -/
def inputReceivedSent : Sent :=
  ⟨.reply, "✅ Input received! Use /cancel to stop or continue with your action.", none⟩

/-- The default reply of the text-message handler. -/
def defaultTextSent : Sent :=
  ⟨.reply, "💬 I received your message! Use /help to see what I can do.", some textDefaultKeyboard⟩

/-- The inviter prompt of `startCommand`. -/
def enterInviterSent : Sent := ⟨.reply, "Please enter your inviter ID", none⟩

/-- The session touch performed by `userValidationMiddleware`, lines
453-460 of `src/index.ts` (`error.middleware.ts`): contact metadata,
`lastActivity = Date.now()` and `messageCount = (messageCount || 0) + 1`. -/
def touchSession (sess : SessionData) (user : User) (now : Nat) : SessionData :=
  { sess with
    userId := some user.id
    username := user.username
    firstName := user.firstName
    lastName := user.lastName
    languageCode := user.languageCode
    lastActivity := now
    messageCount := sess.messageCount + 1 }

/-- The rate-limit check of the middleware at lines 85-103 of
`src/index.ts`: given the stored record for the key (if any) and the
current time, return the record the map should now hold for that key and
whether the request is allowed.  The reset branch fires only when
`now > userLimit.resetTime` (strict). -/
def rateAdmit (windowDuration maxRequests : Nat) (userLimit : Option RateRecord)
    (now : Nat) : RateRecord × Bool :=
  match userLimit with
  | none => (⟨1, now + windowDuration⟩, true)
  | some r =>
    if now > r.resetTime then (⟨1, now + windowDuration⟩, true)
    else if r.count ≥ maxRequests then (r, false)
    else (⟨r.count + 1, r.resetTime⟩, true)

/-- Iterate `rateAdmit` over a sequence of request times for one key,
returning the final stored record and the per-request allow decisions. -/
def admitRun (windowDuration maxRequests : Nat) :
    Option RateRecord → List Nat → Option RateRecord × List Bool
  | rec, [] => (rec, [])
  | rec, t :: ts =>
    let p := rateAdmit windowDuration maxRequests rec t
    let q := admitRun windowDuration maxRequests (some p.1) ts
    (q.1, p.2 :: q.2)

/-- The rate-limit window records reachable for one key by any sequence of
`rateAdmit` operations, starting from an absent record. -/
inductive RateReachable (windowDuration maxRequests : Nat) : Option RateRecord → Prop
  | init : RateReachable windowDuration maxRequests none
  | step (rec : Option RateRecord) (now : Nat) :
      RateReachable windowDuration maxRequests rec →
      RateReachable windowDuration maxRequests
        (some (rateAdmit windowDuration maxRequests rec now).1)

/-- `userValidationMiddleware` from `error.middleware.ts`: returns without
calling `next` when the update has no sender; sends the banned notice and
returns when the sender is in the banned set; otherwise performs the
session touch guarded by `if (ctx.session)` — `ctx.session` is still
undefined at this position of the middleware order, so the guard decides
whether the touch happens — and calls `next`. -/
def userValidationMiddleware (cfg : Config) (k : MwState → MwResult)
    (s : MwState) : MwResult :=
  match s.ctx.update.fromUser with
  | none => .done s
  | some user =>
    if user.id ∈ cfg.bannedUsers then .done (send s bannedSent)
    else
      let s :=
        match s.ctx.session with
        | some sess => setCtxSession s (touchSession sess user s.ctx.update.now)
        | none => s
      k s

/-- The inline rate-limit middleware registered in `setupMiddleware`
(`src/index.ts` lines 79-103).  The map key is
`ctx.from?.id?.toString() || 'unknown'`; an allowed request stores the
record returned by `rateAdmit` and calls `next`, a denied request sends
the throttling reply and returns. -/
def rateLimitMiddleware (cfg : Config) (k : MwState → MwResult)
    (s : MwState) : MwResult :=
  let key := s.ctx.update.fromUser.map User.id
  let p := rateAdmit cfg.window cfg.maxRequests (alistGet s.bot.rateStore key)
    s.ctx.update.now
  if p.2 then
    k { s with bot := { s.bot with rateStore := alistSet s.bot.rateStore key p.1 } }
  else
    .done (send s throttleSent)

/-- The grammY session middleware as configured in `setupMiddleware`:
in-memory storage, sessions created from `initial()` which spreads
`defaultSessionData`; the session value is installed on the context before
`next` and written back to the store when the downstream completes.  The
bot serves private chats, where the grammY default session key (the chat
id) coincides with the sender id. -/
def sessionMiddleware (cfg : Config) (k : MwState → MwResult)
    (s : MwState) : MwResult :=
  match s.ctx.update.fromUser with
  | none => k s
  | some user =>
    let sess :=
      match alistGet s.bot.sessions user.id with
      | some sd => sd
      | none => defaultSessionData cfg.loadTime
    match k (setCtxSession s sess) with
    | .done s2 =>
      match s2.ctx.session with
      | some sd =>
        .done { s2 with bot := { s2.bot with sessions := alistSet s2.bot.sessions user.id sd } }
      | none => .done s2
    | .threw s2 msg => .threw s2 msg

/-- The command allow-list of `commandValidationMiddleware`. -/
def validCommands : List String := ["start", "help", "settings", "about", "cancel"]

/-- `commandValidationMiddleware` from `error.middleware.ts`: non-command
updates pass through; a slash command has its first token (without the
slash) checked against `validCommands`, and anything else draws the
unknown-command reply and returns without calling `next`. -/
def commandValidationMiddleware (k : MwState → MwResult) (s : MwState) : MwResult :=
  match s.ctx.update.text with
  | none => k s
  | some t =>
    if !jsStartsWith t "/" then k s
    else
      let command := jsDrop ((jsSplit ' ' t).headD "") 1
      if command ∈ validCommands then k s
      else .done (send s unknownCommandSent)

/-- `adminMiddleware` from `error.middleware.ts`: the check is
`!userId || !adminIds.includes(userId)`, where a missing id and the id `0`
are both falsy in JS. -/
def adminMiddleware (cfg : Config) (k : MwState → MwResult) (s : MwState) : MwResult :=
  let userId := (s.ctx.update.fromUser.map User.id).getD 0
  if userId = 0 ∨ userId ∉ cfg.adminIds then .done (send s permissionDeniedSent)
  else k s

/-- `startCommand` from `commands.handler.ts`: re-initialises `joinedAt`
and `messageCount` only when `joinedAt` is falsy (`0`), then prompts for an
inviter id when the argument after `/start` is blank, otherwise posts
`{inviterId, userId}` to the sign-up endpoint and branches on a 201
status. -/
def startCommand (s : MwState) : MwState :=
  let s := ranHandler s "startCommand"
  match s.ctx.session with
  | none => s
  | some sess =>
    let sess :=
      if sess.joinedAt = 0 then
        { sess with joinedAt := s.ctx.update.now, messageCount := 0 }
      else sess
    let s := setCtxSession s sess
    let inviterId := jsTrim (jsDrop (s.ctx.update.text.getD "") 6)
    if inviterId = "" then send s enterInviterSent
    else
      let s := { s with
        backendCalls := s.backendCalls ++ [(inviterId, s.ctx.update.fromUser.map User.id)] }
      if s.ctx.update.signUpStatus = 201 then
        send s ⟨.reply, messagesWelcome, some miniAppKeyboard⟩
      else
        send s ⟨.reply, s.ctx.update.signUpMessage, none⟩

/-- `helpCommand` from `commands.handler.ts`. -/
def helpCommand (s : MwState) : MwState :=
  send (ranHandler s "helpCommand") ⟨.reply, messagesHelp, some mainMenuKeyboard⟩

/-- `settingsCommand` from `commands.handler.ts`. -/
def settingsCommand (s : MwState) : MwState :=
  send (ranHandler s "settingsCommand") ⟨.reply, messagesSettingsMenu, some settingsKeyboard⟩

/-- `aboutCommand` from `commands.handler.ts`. -/
def aboutCommand (s : MwState) : MwState :=
  send (ranHandler s "aboutCommand") ⟨.reply, messagesAbout, some backButtonKeyboard⟩

/-- `cancelCommand` from `commands.handler.ts`: resets `userState` to idle
and confirms. -/
def cancelCommand (s : MwState) : MwState :=
  let s := ranHandler s "cancelCommand"
  let s :=
    match s.ctx.session with
    | some sess => setCtxSession s { sess with userState := .idle }
    | none => s
  send s ⟨.reply, messagesCancelled, some mainMenuKeyboard⟩

/-- The statistics text of `statsCommand`; the real string interpolates
runtime metrics (uptime, memory), which are outside the model. -/
def statsMessageText : String := "📊 <b>Bot Statistics</b>"

/-- `statsCommand` from `commands.handler.ts` (admin only). -/
def statsCommand (s : MwState) : MwState :=
  send (ranHandler s "statsCommand") ⟨.reply, statsMessageText, none⟩

/-- `broadcastCommand` from `commands.handler.ts` (admin only). -/
def broadcastCommand (s : MwState) : MwState :=
  let s := ranHandler s "broadcastCommand"
  let text := jsTrim (jsReplaceFirst (s.ctx.update.text.getD "") "/broadcast")
  if text = "" then
    send s ⟨.reply, "Please provide a message to broadcast.\n\nUsage: /broadcast <message>", none⟩
  else
    send s ⟨.reply,
      "📢 <b>Broadcast Preview:</b>\n\n" ++ text ++ "\n\n<i>This would be sent to all users.</i>",
      some (broadcastConfirmKeyboard s.ctx.update.now)⟩

/-- The log text of `logsCommand`; the real string joins a fixed list of
placeholder log lines. -/
def logsMessageText : String :=
  "\n📋 <b>Recent Logs</b>\n\n• No recent errors\n• System running normally\n\n<i>For detailed logs, check the server console.</i>\n  "

/-- `logsCommand` from `commands.handler.ts` (admin only). -/
def logsCommand (s : MwState) : MwState :=
  send (ranHandler s "logsCommand") ⟨.reply, logsMessageText, none⟩

/-- `handleActionCallback` from `callbacks.handler.ts`: the argument is
`params[0]`, which may be absent (`undefined`). -/
def handleActionCallback (s : MwState) (a : Option String) : MwState :=
  if a = some "main" then send s ⟨.editMessage, messagesWelcome, some mainMenuKeyboard⟩
  else if a = some "help" then send s ⟨.editMessage, messagesHelp, some mainMenuKeyboard⟩
  else if a = some "about" then send s ⟨.editMessage, messagesAbout, some backButtonKeyboard⟩
  else if a = some "settings" then send s ⟨.editMessage, messagesSettingsMenu, some settingsKeyboard⟩
  else if a = some "back" then send s ⟨.editMessage, messagesWelcome, some mainMenuKeyboard⟩
  else if a = some "cancel" then
    let s :=
      match s.ctx.session with
      | some sess => setCtxSession s { sess with userState := .idle }
      | none => s
    send s ⟨.editMessage, messagesCancelled, some mainMenuKeyboard⟩
  else if a = some "retry" then
    send s ⟨.editMessage, "🔄 Please try your last action again.", some mainMenuKeyboard⟩
  else if a = some "support" then
    send s ⟨.editMessage,
      "📞 <b>Support</b>\n\nIf you need help, please contact the administrators.",
      some backButtonKeyboard⟩
  else send s unknownActionInnerSent

/-- `handleSettingsCallback` from `callbacks.handler.ts`: toggles
`notificationsEnabled` (defaulting to true) or falls through to the
unknown-setting reply. -/
def handleSettingsCallback (s : MwState) (v : Option String) : MwState :=
  if v = some "language" then
    send s ⟨.editMessage,
      "🌐 <b>Language Settings</b>\n\nSelect your preferred language:",
      some languageKeyboard⟩
  else if v = some "notifications" then
    let enabled :=
      match s.ctx.session with
      | some sess => sess.notificationsEnabled.getD true
      | none => true
    let s :=
      match s.ctx.session with
      | some sess => setCtxSession s { sess with notificationsEnabled := some (!enabled) }
      | none => s
    send s ⟨.editMessage,
      "🔔 <b>Notifications</b>\n\nNotifications are now <b>" ++
        (if !enabled then "enabled" else "disabled") ++ "</b>.",
      some settingsKeyboard⟩
  else send s unknownSettingSent

/-- The `languages` lookup table of `handleLanguageCallback`. -/
def languageNameOf (l : String) : Option String :=
  if l = "en" then some "🇺🇸 English"
  else if l = "ru" then some "🇷🇺 Русский"
  else if l = "es" then some "🇪🇸 Español"
  else if l = "fr" then some "🇫🇷 Français"
  else none

/-- `handleLanguageCallback` from `callbacks.handler.ts`. -/
def handleLanguageCallback (s : MwState) (v : Option String) : MwState :=
  match languageNameOf (v.getD "") with
  | none => send s unknownLanguageSent
  | some name =>
    let s :=
      match s.ctx.session with
      | some sess => setCtxSession s { sess with languageCode := some (v.getD "") }
      | none => s
    send s ⟨.editMessage, "✅ Language changed to " ++ name, some settingsKeyboard⟩

/-- `handleBroadcastCallback` from `callbacks.handler.ts`: only the
`confirm` sub-action produces any reply. -/
def handleBroadcastCallback (s : MwState) (params : List String) : MwState :=
  if params.head? = some "confirm" then
    send s ⟨.editMessage, "✅ <b>Broadcast Sent</b>\n\nMessage has been sent to all users.", none⟩
  else s

/-- `callbackQueryHandler` from `callbacks.handler.ts`: guard on a falsy
payload, answer the callback query, split the payload on `:` and dispatch
on the namespace; unknown namespaces draw the unknown-action reply with
the main menu.  All edits are modelled as succeeding, so the surrounding
try/catch of the source never fires. -/
def callbackQueryHandler (s : MwState) : MwState :=
  match s.ctx.update.callbackData with
  | none => s
  | some callbackData =>
    if callbackData = "" then s
    else
      let s := ranHandler s "callbackQueryHandler"
      let s := send s answerCbSent
      let parts := jsSplit ':' callbackData
      let action := parts.headD ""
      let params := parts.tail
      if action = "action" then handleActionCallback s params.head?
      else if action = "settings" then handleSettingsCallback s params.head?
      else if action = "lang" then handleLanguageCallback s params.head?
      else if action = "broadcast" then handleBroadcastCallback s params
      else send s unknownActionOuterSent

/-- The `message:text` handler of `setupMessageHandlers` in
`src/index.ts`: skips command texts, then branches on
`ctx.session?.userState === 'waiting_input'`. -/
def textMessageHandler (s : MwState) : MwState :=
  let t := s.ctx.update.text.getD ""
  if jsStartsWith t "/" then s
  else
    let s := ranHandler s "textMessageHandler"
    match s.ctx.session with
    | some sess =>
      if sess.userState = .waitingInput then send s inputReceivedSent
      else send s defaultTextSent
    | none => send s defaultTextSent

/-- The command a message text would trigger: grammY matches the first
token of a slash message against the registered command names. -/
def commandOf (t : String) : Option String :=
  if jsStartsWith t "/" then some (jsDrop ((jsSplit ' ' t).headD "") 1) else none

/-- The routing layer set up by `setupCommands`, `setupCallbackHandlers`
and `setupMessageHandlers`, in registration order: public commands, the
three admin commands behind `adminMiddleware`, the callback-query handler,
then the text-message handler.  Media handlers are not modelled (no claim
concerns them), and the development-only `/debug` command is omitted. -/
def route (cfg : Config) (s : MwState) : MwResult :=
  match s.ctx.update.text with
  | some t =>
    match commandOf t with
    | some c =>
      if c = "start" then .done (startCommand s)
      else if c = "help" then .done (helpCommand s)
      else if c = "settings" then .done (settingsCommand s)
      else if c = "about" then .done (aboutCommand s)
      else if c = "cancel" then .done (cancelCommand s)
      else if c = "stats" then adminMiddleware cfg (fun s2 => .done (statsCommand s2)) s
      else if c = "broadcast" then adminMiddleware cfg (fun s2 => .done (broadcastCommand s2)) s
      else if c = "logs" then adminMiddleware cfg (fun s2 => .done (logsCommand s2)) s
      else .done (textMessageHandler s)
    | none => .done (textMessageHandler s)
  | none =>
    match s.ctx.update.callbackData with
    | some _ => .done (callbackQueryHandler s)
    | none => .done s

/-- The error classification of `handleError` in `error.middleware.ts`:
keyword sniffing on the error message, returning the `BotErrorType` and
the user-facing message. -/
inductive BotErrorType where
  | RATE_LIMIT_EXCEEDED
  | USER_BANNED
  | NETWORK_ERROR
  | CONFIGURATION_ERROR
  | UNKNOWN_ERROR
deriving DecidableEq

/-- The keyword classification chain of `handleError`. -/
def classifyBotError (msg : String) : BotErrorType × String :=
  if jsIncludes msg "rate limit" then
    (.RATE_LIMIT_EXCEEDED, "⚠️ Too many requests! Please wait before sending another command.")
  else if jsIncludes msg "banned" then
    (.USER_BANNED, "🚫 You are banned from using this bot.")
  else if jsIncludes msg "network" then
    (.NETWORK_ERROR, "🌐 Network error. Please try again in a moment.")
  else if jsIncludes msg "configuration" then
    (.CONFIGURATION_ERROR, "⚙️ Bot configuration error. Please contact support.")
  else
    (.UNKNOWN_ERROR, "❌ An error occurred. Please try again later.")

/-- The single reply attempt `handleError` makes: the kind-appropriate
message with the retry/support keyboard. -/
def errorReplyFor (msg : String) : Sent :=
  ⟨.reply, (classifyBotError msg).2, some retrySupportKeyboard⟩

/-- `handleError` from `error.middleware.ts`: log the caught error,
classify it, attempt exactly one reply with the retry/support keyboard,
and swallow (only log) a failure of that reply send.  `notifyAdmins`,
invoked for the two most severe kinds, is a placeholder that only logs in
the source and has no observable effect here. -/
def handleError (msg : String) (s : MwState) : MwState :=
  let s := { s with caughtErrors := s.caughtErrors ++ [msg] }
  let attempt := errorReplyFor msg
  if s.ctx.update.errorReplyFails then
    { s with sent := s.sent ++ [attempt], failedSends := s.failedSends ++ [attempt] }
  else
    { s with sent := s.sent ++ [attempt] }

/-- `errorMiddleware` from `error.middleware.ts`: run the rest of the
chain and convert any propagating exception via `handleError`. -/
def errorMiddleware (k : MwState → MwResult) (s : MwState) : MwResult :=
  match k s with
  | .done t => .done t
  | .threw t msg => .done (handleError msg t)

/-- The initial middleware state for one update. -/
def initState (bst : BotState) (u : Update) : MwState :=
  { ctx := ⟨u, none⟩
    bot := bst
    sent := []
    failedSends := []
    handlersRun := []
    backendCalls := []
    caughtErrors := [] }

/-- Process one update through the full chain in the order of
`setupMiddleware`: error boundary, user validation, rate limiting, session
management, command validation (the conversations plugin is a no-op for
the modelled update kinds), then routing to the registered handlers. -/
def processUpdate (cfg : Config) (bst : BotState) (u : Update) : MwResult :=
  errorMiddleware
    (userValidationMiddleware cfg
      (rateLimitMiddleware cfg
        (sessionMiddleware cfg
          (commandValidationMiddleware
            (route cfg)))))
    (initState bst u)

/-- Sample configuration used by concrete evaluations: window 60000 ms,
maximum 20 requests, admin id 1, banned id 9, module loaded at time 500. -/
def cfgSample : Config := ⟨60000, 20, [1], [9], 500⟩

/-- Sample configuration with no admins and no banned users. -/
def cfgNoAdmins (loadTime : Nat) : Config := ⟨60000, 20, [], [], loadTime⟩

/-- Empty stores at process start. -/
def bstEmpty : BotState := ⟨[], []⟩

/-- A plain `/start` contact from a given user at a given time. -/
def startContact (uid n : Nat) : Update :=
  { fromUser := some { id := uid }, text := some "/start", now := n }

/-- The shared prefix of every callback dispatch: the handler has logged
its execution and answered the callback query. -/
def cbAck (s : MwState) : MwState :=
  send (ranHandler s "callbackQueryHandler") answerCbSent

/-- The bot state after processing one update. -/
def afterUpdate (cfg : Config) (bst : BotState) (u : Update) : BotState :=
  (finalState (processUpdate cfg bst u)).bot

theorem alistGet_alistSet {κ β : Type} [DecidableEq κ] (m : List (κ × β)) (k : κ) (v : β) :
    alistGet (alistSet m k v) k = some v := by
  induction m with
  | nil => simp [alistGet, alistSet]
  | cons p rest ih =>
    obtain ⟨k0, w⟩ := p
    by_cases hk : k0 = k
    · subst hk; simp [alistGet, alistSet]
    · simp [alistGet, alistSet, hk, ih]

/-- Claim C2, counterexample: with a stored window record whose window-end
is exactly `now` (`now >= window-end` holds), the code increments the
count instead of replacing the record with `{count 1, windowEnd now + W}`:
the reset condition in the source is the strict `now > resetTime`. -/
theorem C2_counterexample :
    (rateAdmit 60000 20 (some ⟨1, 100⟩) 100).1.count = 2 ∧
    rateAdmit 60000 20 (some ⟨1, 100⟩) 100 ≠ (⟨1, 100 + 60000⟩, true) := by decide

/-- Claim C2, amended: the window is replaced by `{count 1, windowEnd
now + W}` (and the request allowed) exactly when `now` is strictly later
than the stored window-end; while `now <= window-end` the count is
incremented when below the maximum and the request denied otherwise; an
absent record is created as `{count 1, windowEnd now + W}`. -/
theorem C2_reset_strictly_after_window (W M : Nat) (r : RateRecord) (now : Nat) :
    (r.resetTime < now → rateAdmit W M (some r) now = (⟨1, now + W⟩, true)) ∧
    (now ≤ r.resetTime → r.count < M →
      rateAdmit W M (some r) now = (⟨r.count + 1, r.resetTime⟩, true)) ∧
    (now ≤ r.resetTime → M ≤ r.count → rateAdmit W M (some r) now = (r, false)) ∧
    rateAdmit W M none now = (⟨1, now + W⟩, true) := by
  refine ⟨fun h => ?_, fun h1 h2 => ?_, fun h1 h2 => ?_, rfl⟩
  · simp [rateAdmit, h]
  · simp [rateAdmit, Nat.not_lt.mpr h1, Nat.not_le.mpr h2]
  · simp [rateAdmit, Nat.not_lt.mpr h1, h2]

/-- Witness for the amended C2: all four branches realised at concrete
inputs. -/
theorem C2_reset_strictly_after_window_witness :
    rateAdmit 60000 20 (some ⟨1, 100⟩) 101 = (⟨1, 101 + 60000⟩, true) ∧
    rateAdmit 60000 20 (some ⟨1, 100⟩) 100 = (⟨1 + 1, 100⟩, true) ∧
    rateAdmit 60000 20 (some ⟨20, 100⟩) 100 = (⟨20, 100⟩, false) ∧
    rateAdmit 60000 20 none 7 = (⟨1, 7 + 60000⟩, true) := by
  refine ⟨(C2_reset_strictly_after_window 60000 20 ⟨1, 100⟩ 101).1 (by decide),
    ?_, ?_, (C2_reset_strictly_after_window 60000 20 ⟨1, 100⟩ 7).2.2.2⟩
  · exact (C2_reset_strictly_after_window 60000 20 ⟨1, 100⟩ 100).2.1 (by decide) (by decide)
  · exact (C2_reset_strictly_after_window 60000 20 ⟨20, 100⟩ 100).2.2.1 (by decide) (by decide)

theorem rateReachable_invariant (W M : Nat) :
    ∀ o, RateReachable W M o → ∀ r, o = some r → 1 ≤ r.count ∧ r.count ≤ max M 1 := by
  intro o h
  induction h with
  | init => intro r hr; cases hr
  | step rec now hrec ih =>
    intro r hr
    injection hr with hr
    subst hr
    cases rec with
    | none =>
      exact ⟨Nat.le_refl 1, Nat.le_max_right M 1⟩
    | some r0 =>
      have h0 := ih r0 rfl
      by_cases hgt : now > r0.resetTime
      · simp only [rateAdmit, if_pos hgt]
        exact ⟨Nat.le_refl 1, Nat.le_max_right M 1⟩
      · by_cases hc : r0.count ≥ M
        · simp only [rateAdmit, if_neg hgt, if_pos hc]
          exact h0
        · simp only [rateAdmit, if_neg hgt, if_neg hc]
          refine ⟨Nat.succ_le_succ (Nat.zero_le _), ?_⟩
          exact Nat.le_trans (Nat.succ_le_of_lt (Nat.lt_of_not_le hc)) (Nat.le_max_left M 1)

/-- Claim C9: every window record ever stored for a key satisfies
`1 <= count <= max M 1`: creation and reset store count 1, and the count
is only incremented while it is below the configured maximum. -/
theorem C9_rate_count_bounds (W M : Nat) (r : RateRecord)
    (h : RateReachable W M (some r)) : 1 ≤ r.count ∧ r.count ≤ max M 1 :=
  rateReachable_invariant W M (some r) h r rfl

/-- Witness for C9: the record created by the first request is reachable
and satisfies the bounds. -/
theorem C9_rate_count_bounds_witness :
    1 ≤ (RateRecord.mk 1 60000).count ∧ (RateRecord.mk 1 60000).count ≤ max 20 1 :=
  C9_rate_count_bounds 60000 20 ⟨1, 60000⟩
    (RateReachable.step none 0 RateReachable.init)

theorem admitRun_append (W M : Nat) (l1 l2 : List Nat) :
    ∀ rec, admitRun W M rec (l1 ++ l2) =
      ((admitRun W M (admitRun W M rec l1).1 l2).1,
        (admitRun W M rec l1).2 ++ (admitRun W M (admitRun W M rec l1).1 l2).2) := by
  induction l1 with
  | nil => intro rec; simp [admitRun]
  | cons t ts ih => intro rec; simp [admitRun, ih]

theorem admitRun_fill (W M e : Nat) :
    ∀ (ts : List Nat) (c : Nat), (∀ y ∈ ts, y ≤ e) → c + ts.length ≤ M →
      admitRun W M (some ⟨c, e⟩) ts = (some ⟨c + ts.length, e⟩, List.replicate ts.length true) := by
  intro ts
  induction ts with
  | nil => intro c _ _; simp [admitRun]
  | cons t ts ih =>
    intro c hbound hcount
    have ht : ¬ e < t := Nat.not_lt.mpr (hbound t (List.mem_cons_self t ts))
    have hc : ¬ M ≤ c := by
      simp only [List.length_cons] at hcount
      omega
    have hrest := ih (c + 1) (fun y hy => hbound y (List.mem_cons_of_mem t hy))
      (by simp only [List.length_cons] at hcount ⊢; omega)
    simp only [admitRun, rateAdmit, gt_iff_lt, if_neg ht, ge_iff_le, if_neg hc, hrest,
      List.length_cons, List.replicate_succ]
    rw [show c + 1 + ts.length = c + (ts.length + 1) from by omega]

/-- Claim C3: 21 requests from one user inside a single window with
`M = 20`: the first 20 are admitted (so processing proceeds past the rate
gate) with the count climbing exactly to 20, and the 21st is denied.
Moreover, whenever the stored record for the sender already has count 20
and the update time is still inside the window, the rate-limit middleware
sends only the throttling reply, leaves all state unchanged, and never
invokes the rest of the chain (the result is the same for every
continuation), so no handler runs. -/
theorem C3_window_denial (W t0 x : Nat) (ts : List Nat)
    (hlen : ts.length = 19) (hts : ∀ y ∈ ts, y ≤ t0 + W) (hx : x ≤ t0 + W) :
    admitRun W 20 none (t0 :: (ts ++ [x])) =
      (some ⟨20, t0 + W⟩, List.replicate 20 true ++ [false]) ∧
    ∀ (cfg : Config) (k k2 : MwState → MwResult) (s : MwState) (usr : User)
      (rec : RateRecord),
      cfg.maxRequests = 20 → s.ctx.update.fromUser = some usr →
      alistGet s.bot.rateStore (some usr.id) = some rec → rec.count = 20 →
      s.ctx.update.now ≤ rec.resetTime →
      rateLimitMiddleware cfg k s = .done (send s throttleSent) ∧
      rateLimitMiddleware cfg k s = rateLimitMiddleware cfg k2 s := by
  constructor
  · have hstep : admitRun W 20 none (t0 :: (ts ++ [x])) =
        ((admitRun W 20 (some ⟨1, t0 + W⟩) (ts ++ [x])).1,
          true :: (admitRun W 20 (some ⟨1, t0 + W⟩) (ts ++ [x])).2) := by
      simp [admitRun, rateAdmit]
    have hfill := admitRun_fill W 20 (t0 + W) ts 1 hts (by omega)
    have happ := admitRun_append W 20 ts [x] (some ⟨1, t0 + W⟩)
    have hlast : admitRun W 20 (some ⟨1 + ts.length, t0 + W⟩) [x] =
        (some ⟨1 + ts.length, t0 + W⟩, [false]) := by
      have hx' : ¬ t0 + W < x := Nat.not_lt.mpr hx
      have hge : (20 : Nat) ≤ 1 + ts.length := by omega
      simp [admitRun, rateAdmit, if_neg hx', hge]
    simp only [hstep, happ, hfill, hlast]
    rw [hlen]
    rfl
  · intro cfg k k2 s usr rec hM hfrom hget hcount hnow
    have hp : rateAdmit cfg.window cfg.maxRequests
        (alistGet s.bot.rateStore (Option.map User.id s.ctx.update.fromUser)) s.ctx.update.now =
        (rec, false) := by
      rw [hfrom]
      show rateAdmit cfg.window cfg.maxRequests (alistGet s.bot.rateStore (some usr.id))
        s.ctx.update.now = (rec, false)
      rw [hget]
      simp only [rateAdmit, gt_iff_lt, ge_iff_le]
      rw [if_neg (Nat.not_lt.mpr hnow), if_pos (by omega)]
    refine ⟨?_, ?_⟩ <;> simp [rateLimitMiddleware, hp]

/-- Witness for C3: the 21-request scenario at concrete times, and the
denial of the 21st request through the middleware at a concrete state. -/
theorem C3_window_denial_witness :
    admitRun 60000 20 none (0 :: (List.replicate 19 5 ++ [10])) =
      (some ⟨20, 0 + 60000⟩, List.replicate 20 true ++ [false]) ∧
    rateLimitMiddleware cfgSample (fun s => .done s)
        (initState ⟨[(some 7, ⟨20, 60000⟩)], []⟩
          { fromUser := some { id := 7 }, text := some "/help", now := 10 }) =
      .done (send (initState ⟨[(some 7, ⟨20, 60000⟩)], []⟩
        { fromUser := some { id := 7 }, text := some "/help", now := 10 }) throttleSent) := by
  have h := C3_window_denial 60000 0 10 (List.replicate 19 5) (by decide)
    (by intro y hy; simp at hy; omega) (by decide)
  refine ⟨h.1, ?_⟩
  exact ((h.2 cfgSample (fun s => .done s) (fun s => .done s)
    (initState ⟨[(some 7, ⟨20, 60000⟩)], []⟩
      { fromUser := some { id := 7 }, text := some "/help", now := 10 })
    { id := 7 } ⟨20, 60000⟩ rfl rfl (by decide) rfl (by decide))).1

/-- Claim C7: an update from a banned sender draws exactly the banned
notice; the stores are untouched (the session is neither created nor
touched), no handler runs, and nothing reaches the error boundary. -/
theorem C7_banned_short_circuit (cfg : Config) (bst : BotState) (u : Update)
    (usr : User) (hfrom : u.fromUser = some usr)
    (hban : usr.id ∈ cfg.bannedUsers) :
    processUpdate cfg bst u = .done (send (initState bst u) bannedSent) ∧
    (send (initState bst u) bannedSent).bot = bst ∧
    (send (initState bst u) bannedSent).sent = [bannedSent] ∧
    (send (initState bst u) bannedSent).handlersRun = [] ∧
    (send (initState bst u) bannedSent).caughtErrors = [] := by
  refine ⟨?_, rfl, rfl, rfl, rfl⟩
  simp [processUpdate, errorMiddleware, userValidationMiddleware, initState, hfrom, hban]

/-- Witness for C7: banned user 9 sends `/start`. -/
theorem C7_banned_short_circuit_witness :
    processUpdate cfgSample bstEmpty (startContact 9 1000) =
      .done (send (initState bstEmpty (startContact 9 1000)) bannedSent) :=
  (C7_banned_short_circuit cfgSample bstEmpty (startContact 9 1000)
    { id := 9 } rfl (by decide)).1

/-- Claim C10: an update without sender information makes user validation
return before calling `next`: no reply, no store mutation, no handler, no
error. -/
theorem C10_no_sender_frame (cfg : Config) (bst : BotState) (u : Update)
    (h : u.fromUser = none) :
    processUpdate cfg bst u = .done (initState bst u) ∧
    (initState bst u).sent = [] ∧
    (initState bst u).bot = bst ∧
    (initState bst u).handlersRun = [] ∧
    (initState bst u).caughtErrors = [] := by
  refine ⟨?_, rfl, rfl, rfl, rfl⟩
  simp [processUpdate, errorMiddleware, userValidationMiddleware, initState, h]

/-- Witness for C10: a sender-less text update. -/
theorem C10_no_sender_frame_witness :
    processUpdate cfgSample bstEmpty { fromUser := none, text := some "hello" } =
      .done (initState bstEmpty { fromUser := none, text := some "hello" }) :=
  (C10_no_sender_frame cfgSample bstEmpty { fromUser := none, text := some "hello" } rfl).1

/-- Claim C8: the error boundary converts any exception thrown downstream
into a normal completion via `handleError`, which attempts exactly one
reply (the kind-appropriate message with the retry/support keyboard); when
that reply send itself fails, the failure is recorded as logged-and-
swallowed and the boundary still completes normally; the boundary never
propagates an exception for any continuation and state. -/
theorem C8_error_boundary_swallows (k : MwState → MwResult) (s t : MwState)
    (msg : String) (h : k s = .threw t msg) :
    errorMiddleware k s = .done (handleError msg t) ∧
    (handleError msg t).sent = t.sent ++ [errorReplyFor msg] ∧
    (t.ctx.update.errorReplyFails = true →
      (handleError msg t).failedSends = t.failedSends ++ [errorReplyFor msg]) ∧
    ∀ (k2 : MwState → MwResult) (s2 : MwState), ∃ r, errorMiddleware k2 s2 = .done r := by
  refine ⟨by simp [errorMiddleware, h], ?_, ?_, ?_⟩
  · simp only [handleError]
    split <;> rfl
  · intro hf
    simp [handleError, hf]
  · intro k2 s2
    cases hk : k2 s2 with
    | done r => exact ⟨r, by simp [errorMiddleware, hk]⟩
    | threw r m => exact ⟨handleError m r, by simp [errorMiddleware, hk]⟩

/-- A state whose update marks the boundary's own reply send as failing. -/
def stReplyFails : MwState :=
  initState bstEmpty { fromUser := some { id := 3 }, errorReplyFails := true }

/-- Witness for C8: a continuation that throws a network error, with the
boundary's reply send also failing. -/
theorem C8_error_boundary_swallows_witness :
    errorMiddleware (fun _ => .threw stReplyFails "network down") stReplyFails =
      .done (handleError "network down" stReplyFails) ∧
    (handleError "network down" stReplyFails).failedSends =
      stReplyFails.failedSends ++ [errorReplyFor "network down"] := by
  have h := C8_error_boundary_swallows (fun _ => .threw stReplyFails "network down")
    stReplyFails stReplyFails "network down" rfl
  exact ⟨h.1, h.2.2.1 rfl⟩

/-- The configuration of the C1 failing input: module loaded at time 500,
no admins, nobody banned. -/
def cfgC1 : Config := ⟨60000, 20, [], [], 500⟩

/-- The C1 failing input: user 42 sends `/help` at time 1000. -/
def updHelp42 : Update := { fromUser := some { id := 42 }, text := some "/help", now := 1000 }

/-- Claim C1, evaluation at the failing input: a validated `/help` update
from user 42 at time 1000 runs the help handler, but the stored session
still has `messageCount = 0` and `lastActivity = 500` (the module-load
time) — not `messageCount` incremented to 1 and `lastActivity = 1000` as
the claim requires.  The touch block of `userValidationMiddleware` is
guarded by `if (ctx.session)`, and that middleware is registered before
the session middleware installs `ctx.session`, so the touch never
happens. -/
theorem C1_touch_never_happens :
    (finalState (processUpdate cfgC1 bstEmpty updHelp42)).handlersRun = ["helpCommand"] ∧
    alistGet (finalState (processUpdate cfgC1 bstEmpty updHelp42)).bot.sessions 42 =
      some (defaultSessionData 500) ∧
    (defaultSessionData 500).messageCount = 0 ∧
    (defaultSessionData 500).lastActivity = 500 ∧
    ¬ (defaultSessionData 500).messageCount = 1 ∧
    ¬ (defaultSessionData 500).lastActivity = 1000 := by decide

/-- The C5 failing input: non-admin user 99 sends `/stats`. -/
def updStats99 : Update := { fromUser := some { id := 99 }, text := some "/stats", now := 1000 }

/-- The same `/stats` sent by the configured admin (id 1). -/
def updStats1 : Update := { fromUser := some { id := 1 }, text := some "/stats", now := 1000 }

/-- Claim C5, evaluation at the failing input: `/stats` from non-admin 99
draws the unknown-command reply, not the permission-denied reply, and no
handler runs — `commandValidationMiddleware`'s allow-list omits the admin
commands, so they short-circuit before `adminMiddleware`.  The same
happens for the configured admin (id 1), contradicting the documented
admin surface. -/
theorem C5_admin_gate_unreachable :
    (finalState (processUpdate cfgSample bstEmpty updStats99)).sent = [unknownCommandSent] ∧
    permissionDeniedSent ∉ (finalState (processUpdate cfgSample bstEmpty updStats99)).sent ∧
    (finalState (processUpdate cfgSample bstEmpty updStats99)).handlersRun = [] ∧
    (finalState (processUpdate cfgSample bstEmpty updStats1)).sent = [unknownCommandSent] ∧
    (finalState (processUpdate cfgSample bstEmpty updStats1)).handlersRun = [] := by decide

/-- Claim C4, counterexample: the first `/start` contact of user 42
happens at time 1000, but the created session's `joinedAt` is 500 — the
`Date.now()` captured when `bot.config.ts` was evaluated and spread from
`defaultSessionData` — not the time of the contact. -/
theorem C4_counterexample :
    (alistGet (finalState (processUpdate cfgC1 bstEmpty (startContact 42 1000))).bot.sessions
      42).map SessionData.joinedAt = some 500 ∧
    (500 : Nat) ≠ 1000 := by decide

/-- Claim C6, counterexample: dispatching the payload `settings:bogus`
(an unknown verb within the known `settings` namespace) yields the
unknown-setting reply with the settings keyboard — not the unknown-action
reply with the main-menu keyboard. -/
theorem C6_counterexample :
    (finalState (processUpdate cfgSample bstEmpty
      { fromUser := some { id := 7 }, callbackData := some "settings:bogus", now := 1000 })).sent =
      [answerCbSent, unknownSettingSent] ∧
    unknownSettingSent ≠ unknownActionOuterSent ∧
    unknownActionOuterSent ∉ (finalState (processUpdate cfgSample bstEmpty
      { fromUser := some { id := 7 }, callbackData := some "settings:bogus", now := 1000 })).sent := by
  decide

/-- Claim C6, amended: callback dispatch never throws (every dispatch is a
total function of the state), an unknown namespace draws the
unknown-action reply re-showing the main menu, and an unknown verb within
a known namespace draws that namespace's own fallback: the unknown-action
reply with the main menu for `action`, the unknown-setting reply with the
settings keyboard for `settings`, the unknown-language reply with the
language keyboard for `lang`, and no reply beyond the callback
acknowledgment for `broadcast`. -/
theorem C6_unknown_callback_dispatch (s : MwState) (data : String)
    (hdata : s.ctx.update.callbackData = some data) (hne : data ≠ "") :
    ((jsSplit ':' data).headD "" ∉ (["action", "settings", "lang", "broadcast"] : List String) →
      callbackQueryHandler s = send (cbAck s) unknownActionOuterSent) ∧
    ((jsSplit ':' data).headD "" = "action" →
      (jsSplit ':' data).tail.head? ∉ ([some "main", some "help", some "about", some "settings",
        some "back", some "cancel", some "retry", some "support"] : List (Option String)) →
      callbackQueryHandler s = send (cbAck s) unknownActionInnerSent) ∧
    ((jsSplit ':' data).headD "" = "settings" →
      (jsSplit ':' data).tail.head? ∉ ([some "language", some "notifications"] : List (Option String)) →
      callbackQueryHandler s = send (cbAck s) unknownSettingSent) ∧
    ((jsSplit ':' data).headD "" = "lang" →
      (jsSplit ':' data).tail.head? ∉ ([some "en", some "ru", some "es", some "fr"] : List (Option String)) →
      callbackQueryHandler s = send (cbAck s) unknownLanguageSent) ∧
    ((jsSplit ':' data).headD "" = "broadcast" →
      (jsSplit ':' data).tail.head? ≠ some "confirm" →
      callbackQueryHandler s = cbAck s) := by
  refine ⟨?_, ?_, ?_, ?_, ?_⟩
  · intro hns
    simp only [List.mem_cons, List.mem_singleton, not_or] at hns
    obtain ⟨h1, h2, h3, h4, _⟩ := hns
    simp only [callbackQueryHandler, hdata, cbAck]
    rw [if_neg hne, if_neg h1, if_neg h2, if_neg h3, if_neg h4]
  · intro hns hv
    simp only [List.mem_cons, List.mem_singleton, not_or] at hv
    obtain ⟨v1, v2, v3, v4, v5, v6, v7, v8, _⟩ := hv
    simp only [callbackQueryHandler, hdata, cbAck]
    rw [if_neg hne, if_pos hns]
    simp only [handleActionCallback]
    rw [if_neg v1, if_neg v2, if_neg v3, if_neg v4, if_neg v5, if_neg v6, if_neg v7, if_neg v8]
  · intro hns hv
    simp only [List.mem_cons, List.mem_singleton, not_or] at hv
    obtain ⟨v1, v2, _⟩ := hv
    simp only [callbackQueryHandler, hdata, cbAck]
    rw [if_neg hne, if_neg (by rw [hns]; decide), if_pos hns]
    simp only [handleSettingsCallback]
    rw [if_neg v1, if_neg v2]
  · intro hns hv
    simp only [List.mem_cons, List.mem_singleton, not_or] at hv
    obtain ⟨v1, v2, v3, v4, _⟩ := hv
    have hlang : languageNameOf (((jsSplit ':' data).tail.head?).getD "") = none := by
      cases hveq : (jsSplit ':' data).tail.head? with
      | none => rfl
      | some v =>
        rw [hveq] at v1 v2 v3 v4
        have w1 : ¬ v = "en" := fun h => v1 (by rw [h])
        have w2 : ¬ v = "ru" := fun h => v2 (by rw [h])
        have w3 : ¬ v = "es" := fun h => v3 (by rw [h])
        have w4 : ¬ v = "fr" := fun h => v4 (by rw [h])
        simp only [Option.getD_some, languageNameOf, if_neg w1, if_neg w2, if_neg w3, if_neg w4]
    simp only [callbackQueryHandler, hdata, cbAck]
    rw [if_neg hne, if_neg (by rw [hns]; decide), if_neg (by rw [hns]; decide), if_pos hns]
    simp only [handleLanguageCallback, hlang]
  · intro hns hv
    simp only [callbackQueryHandler, hdata, cbAck]
    rw [if_neg hne, if_neg (by rw [hns]; decide), if_neg (by rw [hns]; decide),
      if_neg (by rw [hns]; decide), if_pos hns]
    simp only [handleBroadcastCallback]
    rw [if_neg hv]

/-- A middleware state whose update is a callback query carrying the given
payload, from user 7 on empty stores. -/
def cbState (d : String) : MwState :=
  initState bstEmpty { fromUser := some { id := 7 }, callbackData := some d, now := 1000 }

/-- Witness for the amended C6: all five fallbacks realised at concrete
payloads. -/
theorem C6_unknown_callback_dispatch_witness :
    callbackQueryHandler (cbState "bogus:verb") =
      send (cbAck (cbState "bogus:verb")) unknownActionOuterSent ∧
    callbackQueryHandler (cbState "action:bogus") =
      send (cbAck (cbState "action:bogus")) unknownActionInnerSent ∧
    callbackQueryHandler (cbState "settings:bogus") =
      send (cbAck (cbState "settings:bogus")) unknownSettingSent ∧
    callbackQueryHandler (cbState "lang:xx") =
      send (cbAck (cbState "lang:xx")) unknownLanguageSent ∧
    callbackQueryHandler (cbState "broadcast:bogus") = cbAck (cbState "broadcast:bogus") := by
  refine ⟨(C6_unknown_callback_dispatch (cbState "bogus:verb") "bogus:verb" rfl
      (by decide)).1 (by decide),
    (C6_unknown_callback_dispatch (cbState "action:bogus") "action:bogus" rfl
      (by decide)).2.1 (by decide) (by decide),
    (C6_unknown_callback_dispatch (cbState "settings:bogus") "settings:bogus" rfl
      (by decide)).2.2.1 (by decide) (by decide),
    (C6_unknown_callback_dispatch (cbState "lang:xx") "lang:xx" rfl
      (by decide)).2.2.2.1 (by decide) (by decide),
    (C6_unknown_callback_dispatch (cbState "broadcast:bogus") "broadcast:bogus" rfl
      (by decide)).2.2.2.2 (by decide) (by decide)⟩

/-- Full pipeline run of a bare `/start` contact when a session for the
sender already exists: the handler prompts for an inviter id and the
stored session is written back unchanged (its `joinedAt` is truthy, so
`startCommand` does not re-initialise it). -/
theorem start_pipeline_run (cfg : Config) (bst : BotState) (uid n : Nat) (sd : SessionData)
    (hban : uid ∉ cfg.bannedUsers)
    (hallow : (rateAdmit cfg.window cfg.maxRequests (alistGet bst.rateStore (some uid)) n).2 = true)
    (hsess : alistGet bst.sessions uid = some sd)
    (hjoin : ¬ sd.joinedAt = 0) :
    processUpdate cfg bst (startContact uid n) =
      .done { ctx := ⟨startContact uid n, some sd⟩,
              bot := ⟨alistSet bst.rateStore (some uid)
                        (rateAdmit cfg.window cfg.maxRequests (alistGet bst.rateStore (some uid)) n).1,
                      alistSet bst.sessions uid sd⟩,
              sent := [enterInviterSent], failedSends := [], handlersRun := ["startCommand"],
              backendCalls := [], caughtErrors := [] } := by
  have hst : jsStartsWith "/start" "/" = true := rfl
  have hcmd : jsDrop ((jsSplit ' ' "/start").headD "") 1 = "start" := rfl
  have hcmd2 : jsDrop ((jsSplit ' ' "/start").head?.getD "") 1 = "start" := rfl
  have htrim : jsTrim (jsDrop "/start" 6) = "" := rfl
  simp [processUpdate, initState, startContact, errorMiddleware, userValidationMiddleware,
    rateLimitMiddleware, sessionMiddleware, commandValidationMiddleware, route, startCommand,
    commandOf, setCtxSession, send, ranHandler, validCommands,
    hban, hallow, hsess, hjoin, hst, hcmd, hcmd2, htrim]

/-- Full pipeline run of a bare `/start` contact with no prior session:
the session middleware materialises `defaultSessionData` (whose
`joinedAt` is the module-load timestamp), and `startCommand` keeps it
whenever that timestamp is truthy. -/
theorem start_pipeline_run_fresh (cfg : Config) (bst : BotState) (uid n : Nat)
    (hban : uid ∉ cfg.bannedUsers)
    (hallow : (rateAdmit cfg.window cfg.maxRequests (alistGet bst.rateStore (some uid)) n).2 = true)
    (hsess : alistGet bst.sessions uid = none)
    (hjoin : ¬ cfg.loadTime = 0) :
    processUpdate cfg bst (startContact uid n) =
      .done { ctx := ⟨startContact uid n, some (defaultSessionData cfg.loadTime)⟩,
              bot := ⟨alistSet bst.rateStore (some uid)
                        (rateAdmit cfg.window cfg.maxRequests (alistGet bst.rateStore (some uid)) n).1,
                      alistSet bst.sessions uid (defaultSessionData cfg.loadTime)⟩,
              sent := [enterInviterSent], failedSends := [], handlersRun := ["startCommand"],
              backendCalls := [], caughtErrors := [] } := by
  have hst : jsStartsWith "/start" "/" = true := rfl
  have hcmd : jsDrop ((jsSplit ' ' "/start").headD "") 1 = "start" := rfl
  have hcmd2 : jsDrop ((jsSplit ' ' "/start").head?.getD "") 1 = "start" := rfl
  have htrim : jsTrim (jsDrop "/start" 6) = "" := rfl
  simp [processUpdate, initState, startContact, errorMiddleware, userValidationMiddleware,
    rateLimitMiddleware, sessionMiddleware, commandValidationMiddleware, route, startCommand,
    commandOf, setCtxSession, send, ranHandler, validCommands, defaultSessionData,
    hban, hallow, hsess, hjoin, hst, hcmd, hcmd2, htrim]

/-- Claim C4, amended: when the module-load timestamp is nonzero (as
`Date.now()` at process start always is), the first `/start` contact of a
new user creates a session whose `joinedAt` equals that module-load
timestamp — the same constant for every user, not the contact time — and
a second contact for the same user id yields the same `joinedAt`
(creation is idempotent and `joinedAt` is never reset). -/
theorem C4_joined_at_never_reset (uid n1 n2 loadTime : Nat) (h : ¬ loadTime = 0) :
    (alistGet (afterUpdate (cfgNoAdmins loadTime) bstEmpty (startContact uid n1)).sessions uid).map
      SessionData.joinedAt = some loadTime ∧
    (alistGet (afterUpdate (cfgNoAdmins loadTime)
        (afterUpdate (cfgNoAdmins loadTime) bstEmpty (startContact uid n1))
        (startContact uid n2)).sessions uid).map
      SessionData.joinedAt = some loadTime := by
  have hrun1 := start_pipeline_run_fresh (cfgNoAdmins loadTime) bstEmpty uid n1
    (List.not_mem_nil uid) rfl rfl h
  have hbot1 : afterUpdate (cfgNoAdmins loadTime) bstEmpty (startContact uid n1) =
      ⟨[(some uid, ⟨1, n1 + 60000⟩)], [(uid, defaultSessionData loadTime)]⟩ := by
    unfold afterUpdate
    rw [hrun1]
    rfl
  have hget1 : alistGet [(uid, defaultSessionData loadTime)] uid = some (defaultSessionData loadTime) :=
    alistGet_alistSet [] uid (defaultSessionData loadTime)
  have hallow2 : (rateAdmit 60000 20
      (alistGet ([(some uid, (⟨1, n1 + 60000⟩ : RateRecord))]) (some uid)) n2).2 = true := by
    rw [show alistGet ([(some uid, (⟨1, n1 + 60000⟩ : RateRecord))]) (some uid) =
        some (⟨1, n1 + 60000⟩ : RateRecord) from
      alistGet_alistSet ([] : List (Option Nat × RateRecord)) (some uid)
        (⟨1, n1 + 60000⟩ : RateRecord)]
    by_cases hgt : n1 + 60000 < n2
    · simp [rateAdmit, hgt]
    · simp [rateAdmit, hgt]
  have hrun2 := start_pipeline_run (cfgNoAdmins loadTime)
    ⟨[(some uid, ⟨1, n1 + 60000⟩)], [(uid, defaultSessionData loadTime)]⟩ uid n2
    (defaultSessionData loadTime) (List.not_mem_nil uid) hallow2 hget1 h
  have hbot2 : afterUpdate (cfgNoAdmins loadTime)
      ⟨[(some uid, ⟨1, n1 + 60000⟩)], [(uid, defaultSessionData loadTime)]⟩ (startContact uid n2) =
      ⟨alistSet [(some uid, ⟨1, n1 + 60000⟩)] (some uid)
          (rateAdmit 60000 20 (alistGet [(some uid, ⟨1, n1 + 60000⟩)] (some uid)) n2).1,
        alistSet [(uid, defaultSessionData loadTime)] uid (defaultSessionData loadTime)⟩ := by
    unfold afterUpdate
    rw [hrun2]
    rfl
  refine ⟨?_, ?_⟩
  · rw [hbot1]
    rw [hget1]
    rfl
  · rw [hbot1, hbot2]
    rw [show alistGet (alistSet [(uid, defaultSessionData loadTime)] uid
        (defaultSessionData loadTime)) uid = some (defaultSessionData loadTime) from
      alistGet_alistSet _ _ _]
    rfl

/-- Witness for the amended C4: user 42 contacts at times 1000 and 2000
with module-load time 500; both stored `joinedAt` values are 500. -/
theorem C4_joined_at_never_reset_witness :
    (alistGet (afterUpdate (cfgNoAdmins 500) bstEmpty (startContact 42 1000)).sessions 42).map
      SessionData.joinedAt = some 500 ∧
    (alistGet (afterUpdate (cfgNoAdmins 500)
        (afterUpdate (cfgNoAdmins 500) bstEmpty (startContact 42 1000))
        (startContact 42 2000)).sessions 42).map
      SessionData.joinedAt = some 500 :=
  C4_joined_at_never_reset 42 1000 2000 500 (by decide)
